import Mathlib

/-!
Shallow embedding of valtio-auto-persist (src/src/index.ts) and proofs about
the claims of its specification.

The state objects tracked by the library are modelled as flat association
lists of field names to primitive values; storage is an association list of
string keys to serialized strings together with a log of every storage
operation performed, so that claims about which storage calls happen can be
stated over the log.  Strategy instances (storage, serialization, merge) are
caller supplied; here they are plain Lean functions, with JavaScript falsy
results modelled as Option.none (the source applies "|| null" to every
strategy result).  All strategies are modelled in their synchronous form:
the source invokes a given strategy instance through one fixed calling
convention for the whole session, and the sequential semantics of a sync
session and of an async session with non-overlapping notifications agree.
-/

namespace ValtioAutoPersist

/-- A primitive JavaScript value stored in a field of the state object. -/
inductive Prim where
  | num (n : Int)
  | str (s : String)
  | boolean (b : Bool)
deriving DecidableEq, Repr

/-- A state object: an association list from field names to primitive values. -/
abbrev State := List (String × Prim)

/-- The structural type tag of a primitive value, ignoring the value itself. -/
def primTag : Prim → String
  | .num _ => "num"
  | .str _ => "str"
  | .boolean _ => "bool"

/-- Lexicographic strict order on character-code lists, used to sort field
names deterministically. -/
def codeLt : List Nat → List Nat → Bool
  | [], [] => false
  | [], _ :: _ => true
  | _ :: _, [] => false
  | a :: as, b :: bs => if a < b then true else if b < a then false else codeLt as bs

/-- Deterministic strict order on field names: lexicographic on character
codes. -/
def nameLt (a b : String) : Bool :=
  codeLt (a.data.map Char.toNat) (b.data.map Char.toNat)

/-- Insert one (field name, tag) pair into a list sorted by field name. -/
def insertByName (p : String × String) : List (String × String) → List (String × String)
  | [] => [p]
  | q :: rest => if nameLt p.1 q.1 then p :: q :: rest else q :: insertByName p rest

/-- Sort a list of (field name, tag) pairs by field name. -/
def sortByName : List (String × String) → List (String × String)
  | [] => []
  | p :: rest => insertByName p (sortByName rest)

/-- Modelled from the spec: the external structure-id package (the
StructuralKeyDeriver, import on line 13 of index.ts, not part of this
repository).  The spec requires a pure deterministic key computed solely
from field names and value types, independent of the values and of field
insertion order; this model encodes the name-sorted list of
(field name, type tag) pairs. -/
def structureId (s : State) : String :=
  (sortByName (s.map (fun p => (p.1, primTag p.2)))).foldl
    (fun acc q => acc ++ q.1 ++ ":" ++ q.2 ++ ";") "sid:"

/-- One storage operation, as issued by the library against the storage
strategy: get, set or remove. -/
inductive StOp where
  | get (key : String)
  | set (key : String) (data : String)
  | remove (key : String)
deriving DecidableEq, Repr

/-- Look a key up in an association list of storage entries. -/
def lookupA (l : List (String × String)) (k : String) : Option String :=
  match l with
  | [] => none
  | p :: rest => if p.1 = k then some p.2 else lookupA rest k

/-- Write a key in an association list of storage entries, replacing an
existing entry or appending a new one. -/
def setA (l : List (String × String)) (k v : String) : List (String × String) :=
  match l with
  | [] => [(k, v)]
  | p :: rest => if p.1 = k then (k, v) :: rest else p :: setA rest k v

/-- Remove a key from an association list of storage entries. -/
def removeA (l : List (String × String)) (k : String) : List (String × String) :=
  match l with
  | [] => []
  | p :: rest => if p.1 = k then removeA rest k else p :: removeA rest k

/-- The storage backend: its current contents plus the log of every
storage operation performed so far, oldest first. -/
structure World where
  contents : List (String × String)
  log : List StOp
deriving DecidableEq, Repr

/-- The world with an empty storage backend and an empty log. -/
def emptyWorld : World := { contents := [], log := [] }

/-- Append a get operation to the log (contents unchanged). -/
def logGet (w : World) (k : String) : World :=
  { w with log := w.log ++ [StOp.get k] }

/-- storage.get: read a key, logging the operation. -/
def World.getS (w : World) (k : String) : Option String × World :=
  (lookupA w.contents k, logGet w k)

/-- storage.set: write a key, logging the operation. -/
def World.setS (w : World) (k v : String) : World :=
  { contents := setA w.contents k v, log := w.log ++ [StOp.set k v] }

/-- storage.remove: delete a key, logging the operation. -/
def World.removeS (w : World) (k : String) : World :=
  { contents := removeA w.contents k, log := w.log ++ [StOp.remove k] }

/-- Whether a logged operation is a set. -/
def isSetOp : StOp → Bool
  | .set _ _ => true
  | _ => false

/-- Number of set operations in a log. -/
def countSets (l : List StOp) : Nat := (l.filter isSetOp).length

/-- The resolved per-session configuration: the options object of persist
after defaulting, with each strategy already resolved to its instance
(index.ts lines 69-98).  Strategy results use Option, none standing for a
JavaScript falsy result. -/
structure Config where
  key : String
  serialize : State → String
  deserialize : String → Option State
  merge : State → State → Option State
  shouldPersist : State → State → Bool
  debounceTime : Nat
  updateStorageKeyOnStructureChange : Bool

/-- The module-level mutable state of index.ts: the process-wide flag
userProvidedKey declared with let on line 63, initially true, set to false
by any persist call whose options carry no key (line 83). -/
structure Process where
  userProvidedKey : Bool
deriving DecidableEq, Repr

/-- The process state at module load: userProvidedKey = true (line 63). -/
def proc0 : Process := { userProvidedKey := true }

/-- The per-session state captured by the closures persist returns: the
key (a const, line 81), the initialState argument, the live store contents,
the previousState variable (line 140), and the pending trailing-edge
debounce deadline (none when no write is scheduled). -/
structure Session where
  key : String
  initialState : State
  store : State
  previousState : State
  pending : Option Nat
deriving DecidableEq, Repr

/-- JavaScript coercion "x || null" on an optional string: a present but
empty (falsy) string collapses to null, modelled as none. -/
def jsStringOrNull (d : Option String) : Option String :=
  d.bind (fun s => if s = "" then none else some s)

/-- A JavaScript value that may also be null or undefined, as distinguished
by the mergedState computation of index.ts lines 132-136. -/
inductive JSVal (α : Type) where
  | obj (a : α)
  | nullv
  | undef
deriving DecidableEq, Repr

/-- Modelled from valtio (external dependency, not part of this
repository): proxy has signature proxy(initialObject = \x7b\x7d) and begins
with an object check that throws Error("object required") on any
non-object argument.  Hence proxy(undefined) builds a proxy over a fresh
empty object, and proxy(null) throws: the default parameter replaces only
undefined, and null fails the object check. -/
def proxyMk : JSVal State → Except String State
  | .obj a => .ok a
  | .undef => .ok []
  | .nullv => .error "object required"

/-- The key a persist call uses: the generated structural id when the
options carry no key, the explicit key otherwise (line 81). -/
def persistKey (o : Config) (initialState : State) : String :=
  if o.key = "" then structureId initialState else o.key

/-- The process state after a persist call: the global flag drops to false
when the options carry no key (line 83), and is otherwise left alone. -/
def persistProc (o : Config) (proc : Process) : Process :=
  if o.key = "" then { userProvidedKey := false } else proc

/-- What persist returns on success: the session state plus the updated
process and world. -/
structure InitResult where
  sess : Session
  proc : Process
  world : World
deriving DecidableEq, Repr

/-- A dummy result used only to destructure Except values in concrete
scenarios. -/
def dummyInit : InitResult :=
  { sess := { key := "", initialState := [], store := [], previousState := [],
              pending := none },
    proc := proc0, world := emptyWorld }

/-- Extract the ok value of a persist call, with a dummy default. -/
def getOkD (e : Except String InitResult) : InitResult :=
  match e with
  | .ok r => r
  | .error _ => dummyInit

/-- Session construction, index.ts lines 65-141: compute the key, update the
global flag, read storage at the key (with || null), deserialize (with
|| null), merge against initialState (with || null) when a stored value was
found, and build the live store with valtio proxy over the result, which is
undefined when nothing usable was stored and null when the merge result was
falsy.  previousState starts as the first snapshot (line 140). -/
def persist (o : Config) (initialState : State) (proc : Process) (w : World) :
    Except String InitResult :=
  let key := persistKey o initialState
  let proc2 := persistProc o proc
  let (raw, w2) := w.getS key
  let data := jsStringOrNull raw
  let storedState : Option State := data.bind o.deserialize
  let mergedState : JSVal State :=
    match storedState with
    | none => .undef
    | some st =>
      match o.merge initialState st with
      | some m => .obj m
      | none => .nullv
  match proxyMk mergedState with
  | .error e => .error e
  | .ok store =>
    .ok { sess := { key := key, initialState := initialState, store := store,
                    previousState := store, pending := none },
          proc := proc2, world := w2 }

/-- The persistData closure, index.ts lines 143-164: snapshot the store,
return without writing when shouldPersist(previousState, currentState) is
false, otherwise serialize the snapshot and write it to storage under the
session key. -/
def persistData (o : Config) (sess : Session) (w : World) : World :=
  let currentState := sess.store
  if o.shouldPersist sess.previousState currentState then
    w.setS sess.key (o.serialize currentState)
  else w

/-- Modelled from the spec: firing side of the debounce helper from
src/utils (not under src/): trailing-edge debounce runs the wrapped
persistData once the deadline of the last scheduling call is reached, and a
pending deadline not yet reached at time t does not fire. -/
def fireDue (o : Config) (sess : Session) (w : World) (t : Nat) : Session × World :=
  match sess.pending with
  | some d =>
    if d ≤ t then ({ sess with pending := none }, persistData o sess w)
    else (sess, w)
  | none => (sess, w)

/-- The condition of the key-migration branch, index.ts line 176: the key
differs from the structural id of the current snapshot, the process-wide
userProvidedKey flag is false, and updateStorageKeyOnStructureChange is
enabled. -/
def migrationGuard (o : Config) (proc : Process) (key : String) (s : State) : Bool :=
  (key != structureId s) && (!proc.userProvidedKey)
    && o.updateStorageKeyOnStructureChange

/-- The subscribe callback, index.ts lines 170-196, handling one mutation
delivered at time t that leaves the store holding s: first any due debounce
deadline fires (trailing-edge), then the snapshot is taken, the structural
id recomputed, the migration branch (guarded by migrationGuard) removes the
old key and writes the serialized snapshot under the generated id, then a
shouldPersist-approved mutation (re)schedules the debounced write, and
previousState is updated unconditionally.  The const key is never
reassigned. -/
def handleMutation (o : Config) (proc : Process) (sw : Session × World)
    (ev : Nat × State) : Session × World :=
  let fired := fireDue o sw.1 sw.2 ev.1
  let sess := { fired.1 with store := ev.2 }
  let w := fired.2
  let currentState := sess.store
  let generatedId := structureId currentState
  let w2 :=
    if migrationGuard o proc sess.key currentState then
      (w.removeS sess.key).setS generatedId (o.serialize currentState)
    else w
  let sess2 :=
    if o.shouldPersist sess.previousState currentState then
      { sess with pending := some (ev.1 + o.debounceTime) }
    else sess
  ({ sess2 with previousState := currentState }, w2)

/-- Deliver a time-ordered list of mutations to the subscribe callback. -/
def runMutations (o : Config) (proc : Process) (sw : Session × World)
    (evs : List (Nat × State)) : Session × World :=
  evs.foldl (handleMutation o proc) sw

/-- Let enough time pass that a pending debounce deadline fires. -/
def flushPending (o : Config) (sw : Session × World) : Session × World :=
  match sw.1.pending with
  | some _ => ({ sw.1 with pending := none }, persistData o sw.1 sw.2)
  | none => sw

/-- The session after a run of mutations. -/
def runSess (o : Config) (proc : Process) (sw : Session × World)
    (evs : List (Nat × State)) : Session :=
  (runMutations o proc sw evs).1

/-- The world after a run of mutations. -/
def runWorld (o : Config) (proc : Process) (sw : Session × World)
    (evs : List (Nat × State)) : World :=
  (runMutations o proc sw evs).2

/-- The clear closure, index.ts lines 202-208: remove the session key from
storage.  It touches nothing else: the session (in particular the live
store) is returned unchanged, reflecting that the closure only captures the
key and the storage instance. -/
def clear (sess : Session) (w : World) : Session × World :=
  (sess, w.removeS sess.key)

/-- Write one field of the live store, replacing an existing field or
appending a new one. -/
def setField (s : State) (k : String) (v : Prim) : State :=
  match s with
  | [] => [(k, v)]
  | p :: rest => if p.1 = k then (k, v) :: rest else p :: setField rest k v

/-- Modelled from the spec: updateStore from src/utils (not under src/),
which applies the fields of the merged result onto the live store in place,
field, preserving the store object itself. -/
def updateStore (live merged : State) : State :=
  merged.foldl (fun acc p => setField acc p.1 p.2) live

/-- What restore returns: the boolean result plus the updated session and
world. -/
structure RestoreResult where
  found : Bool
  sess : Session
  world : World
deriving DecidableEq, Repr

/-- The restore closure, index.ts lines 209-232: re-read storage at the
session key, deserialize, merge against the captured initialState argument
(all with || null), and, when the merged result is truthy, apply it onto
the live store with updateStore and return true; otherwise return false. -/
def restore (o : Config) (sess : Session) (w : World) : RestoreResult :=
  let (raw, w2) := w.getS sess.key
  let data := jsStringOrNull raw
  let storedState : Option State := data.bind o.deserialize
  let mergedState : Option State := storedState.bind (o.merge sess.initialState)
  match mergedState with
  | some m =>
    { found := true, sess := { sess with store := updateStore sess.store m },
      world := w2 }
  | none => { found := false, sess := sess, world := w2 }

/-- Specification-side formula: the stored-then-deserialized-then-merged
chain restore evaluates, phrased directly over the storage contents. -/
def storedMergedChain (o : Config) (init : State) (key : String) (w : World) :
    Option State :=
  ((jsStringOrNull (lookupA w.contents key)).bind o.deserialize).bind (o.merge init)

/-- Run a fresh persist call against an empty storage backend and report
what restore returns (none if session construction failed). -/
def freshRestore (o : Config) (initialState : State) (proc : Process) :
    Option Bool :=
  match persist o initialState proc emptyWorld with
  | .ok r => some (restore o r.sess r.world).found
  | .error _ => none

/-- The state the store holds after the last of a list of mutations
(the second components of the events), or the given default when the list
is empty. -/
def lastState (evs : List (Nat × State)) (d : State) : State :=
  match evs with
  | [] => d
  | ev :: rest => lastState rest ev.2

/-- The pending debounce deadline after a list of shouldPersist-approved
mutations, starting from a given deadline. -/
def lastDeadline (dbt : Nat) (evs : List (Nat × State)) (d : Option Nat) :
    Option Nat :=
  match evs with
  | [] => d
  | ev :: rest => lastDeadline dbt rest (some (ev.1 + dbt))

/-- Each event of the list arrives strictly before the deadline pending at
its delivery time, so no intermediate debounce firing occurs: this is the
"all mutations within the debounce window" timing condition. -/
def timeline (dbt : Nat) (d : Option Nat) (evs : List (Nat × State)) : Bool :=
  match evs with
  | [] => true
  | ev :: rest =>
    match d with
    | none => timeline dbt (some (ev.1 + dbt)) rest
    | some dl => decide (ev.1 < dl) && timeline dbt (some (ev.1 + dbt)) rest

/-- A concrete serializer for scenario sessions. -/
def encodePrim : Prim → String
  | .num n => toString n
  | .str s => s
  | .boolean b => toString b

/-- A concrete serializer for scenario sessions: one field per entry. -/
def encodeState (s : State) : String :=
  s.foldl (fun acc p => acc ++ p.1 ++ "=" ++ encodePrim p.2 ++ ";") "st:"

/-- A concrete merge for scenario sessions: stored fields override initial
fields (the shape of the default merge described by the spec). -/
def mergeOverride (i st : State) : Option State := some (updateStore i st)

/-- Scenario: the basic-usage initial state from the repository readme and
the spec example. -/
def init1 : State := [("count", Prim.num 1), ("text", Prim.str "hello")]

/-- Scenario for C1: a session with no explicit key and default-like
behaviour flags. -/
def cfg1 : Config :=
  { key := "", serialize := encodeState, deserialize := fun _ => none,
    merge := mergeOverride, shouldPersist := fun _ _ => true,
    debounceTime := 100, updateStorageKeyOnStructureChange := true }

/-- Scenario for C2 and C5: initial state of shape \x7ba: number\x7d. -/
def init2 : State := [("a", Prim.num 1)]

/-- Scenario mutation result of shape \x7ba: number, b: string\x7d:
a structure change relative to init2. -/
def mut2 : State := [("a", Prim.num 1), ("b", Prim.str "x")]

/-- Scenario for C2: keyless session, shouldPersist always true. -/
def cfg2 : Config :=
  { key := "", serialize := encodeState, deserialize := fun _ => none,
    merge := mergeOverride, shouldPersist := fun _ _ => true,
    debounceTime := 100, updateStorageKeyOnStructureChange := true }

/-- Scenario for C2: the session persist builds for init2 on empty
storage. -/
def res2 : InitResult := getOkD (persist cfg2 init2 proc0 emptyWorld)

/-- Scenario for C2: deliver one structure-changing mutation at time 0,
then let the debounce window elapse. -/
def run2 : Session × World :=
  flushPending cfg2
    (runMutations cfg2 res2.proc (res2.sess, res2.world) [(0, mut2)])

/-- Scenario for C3: keyless session whose shouldPersist is always
false. -/
def cfg3 : Config :=
  { key := "", serialize := encodeState, deserialize := fun _ => none,
    merge := mergeOverride, shouldPersist := fun _ _ => false,
    debounceTime := 100, updateStorageKeyOnStructureChange := true }

/-- Scenario for C3: the session persist builds for init2 on empty
storage. -/
def res3 : InitResult := getOkD (persist cfg3 init2 proc0 emptyWorld)

/-- Scenario for C3: one structure-changing mutation, then the debounce
window elapses. -/
def run3 : Session × World :=
  flushPending cfg3
    (runMutations cfg3 res3.proc (res3.sess, res3.world) [(0, mut2)])

/-- Scenario for C4: initial state of the earlier keyless session. -/
def init4 : State := [("x", Prim.num 0)]

/-- Scenario for C4: the earlier session created without an explicit
key. -/
def cfg4a : Config :=
  { key := "", serialize := encodeState, deserialize := fun _ => none,
    merge := mergeOverride, shouldPersist := fun _ _ => true,
    debounceTime := 100, updateStorageKeyOnStructureChange := true }

/-- Scenario for C4: the later session created with the explicit key
"k". -/
def cfg4b : Config :=
  { key := "k", serialize := encodeState, deserialize := fun _ => none,
    merge := mergeOverride, shouldPersist := fun _ _ => true,
    debounceTime := 100, updateStorageKeyOnStructureChange := true }

/-- Scenario for C4: the keyless session, created first. -/
def res4a : InitResult := getOkD (persist cfg4a init4 proc0 emptyWorld)

/-- Scenario for C4: the explicit-key session, created second in the same
process. -/
def res4b : InitResult := getOkD (persist cfg4b init2 res4a.proc res4a.world)

/-- Scenario for C4: one structure-changing mutation delivered to the
explicit-key session. -/
def run4 : Session × World :=
  runMutations cfg4b res4b.proc (res4b.sess, res4b.world) [(0, mut2)]

/-- Scenario for C5 counterexample: like cfg2 (shouldPersist always true),
keyless. -/
def res5 : InitResult := getOkD (persist cfg2 init2 proc0 emptyWorld)

/-- Scenario for C5 counterexample: a single structure-changing mutation
inside the debounce window, then the window elapses. -/
def run5 : Session × World :=
  flushPending cfg2
    (runMutations cfg2 res5.proc (res5.sess, res5.world) [(0, mut2)])

/-- Scenario for C10: a merge strategy that always returns a falsy
result. -/
def cfg10 : Config :=
  { key := "K10", serialize := encodeState,
    deserialize := fun d => if d = "blob" then some [("v", Prim.num 7)] else none,
    merge := fun _ _ => none, shouldPersist := fun _ _ => true,
    debounceTime := 100, updateStorageKeyOnStructureChange := true }

/-- Scenario for C10: initial state. -/
def init10 : State := [("v", Prim.num 1)]

/-- Scenario for C10: storage already holds deserializable data under the
session key. -/
def w10 : World := { contents := [("K10", "blob")], log := [] }

/-- Witness scenario config with shouldPersist always false. -/
def cfgW3 : Config :=
  { key := "KW", serialize := encodeState, deserialize := fun _ => none,
    merge := mergeOverride, shouldPersist := fun _ _ => false,
    debounceTime := 100, updateStorageKeyOnStructureChange := true }

/-- Witness scenario config with shouldPersist always true. -/
def cfgW5 : Config :=
  { key := "KW", serialize := encodeState, deserialize := fun _ => none,
    merge := mergeOverride, shouldPersist := fun _ _ => true,
    debounceTime := 100, updateStorageKeyOnStructureChange := true }

/-- Witness scenario session: an explicit-key session at rest. -/
def sessW : Session :=
  { key := "KW", initialState := init2, store := init2,
    previousState := init2, pending := none }

/-- Witness scenario mutation list: two mutations 50 ms apart, inside the
100 ms debounce window. -/
def evsW : List (Nat × State) :=
  [(0, [("a", Prim.num 2)]), (50, [("a", Prim.num 3)])]

/-! ## General lemmas about the storage model -/

theorem lookupA_setA (l : List (String × String)) (k v k2 : String) :
    lookupA (setA l k v) k2 = if k2 = k then some v else lookupA l k2 := by
  induction l with
  | nil =>
    by_cases h : k2 = k
    · simp [setA, lookupA, h]
    · simp [setA, lookupA, h, Ne.symm h]
  | cons p rest ih =>
    by_cases hp : p.1 = k
    · by_cases h : k2 = k
      · simp [setA, lookupA, hp, h]
      · have h1 : ¬ k = k2 := fun hh => h hh.symm
        have h2 : ¬ p.1 = k2 := fun hh => h1 (hp.symm.trans hh)
        simp [setA, lookupA, hp, h, h1, h2]
    · by_cases h : p.1 = k2
      · have hk : ¬ k2 = k := fun hh => hp (h.trans hh)
        simp [setA, lookupA, hp, h, hk]
      · simp [setA, lookupA, hp, h, ih]

theorem lookupA_removeA (l : List (String × String)) (k k2 : String) :
    lookupA (removeA l k) k2 = if k2 = k then none else lookupA l k2 := by
  induction l with
  | nil => simp [removeA, lookupA]
  | cons p rest ih =>
    by_cases hp : p.1 = k
    · by_cases hk : k2 = k
      · subst hk
        simp [removeA, lookupA, hp]
        simpa using ih
      · have h1 : ¬ k = k2 := fun hh => hk hh.symm
        have h2 : ¬ p.1 = k2 := fun hh => hk ((hh.symm.trans hp))
        simp [removeA, lookupA, hp, hk, h1, h2, ih]
    · by_cases h : p.1 = k2
      · have hk : ¬ k2 = k := fun hh => hp (h.trans hh)
        simp [removeA, lookupA, hp, h, hk]
      · simp [removeA, lookupA, hp, h, ih]

theorem countSets_append (l1 l2 : List StOp) :
    countSets (l1 ++ l2) = countSets l1 + countSets l2 := by
  simp [countSets, List.filter_append]

theorem restore_characterization (o : Config) (sess : Session) (w : World) :
    restore o sess w =
      (match storedMergedChain o sess.initialState sess.key w with
       | some m =>
         { found := true, sess := { sess with store := updateStore sess.store m },
           world := logGet w sess.key }
       | none => { found := false, sess := sess, world := logGet w sess.key }) := by
  rcases h : storedMergedChain o sess.initialState sess.key w with _ | m <;>
    simp only [storedMergedChain] at h <;>
    simp [restore, World.getS, logGet, h]

theorem fireDue_fields (o : Config) (sess : Session) (w : World) (t : Nat) :
    (fireDue o sess w t).1.key = sess.key
    ∧ (fireDue o sess w t).1.initialState = sess.initialState
    ∧ (fireDue o sess w t).1.store = sess.store
    ∧ (fireDue o sess w t).1.previousState = sess.previousState := by
  rcases hp : sess.pending with _ | d
  · simp [fireDue, hp]
  · by_cases h : d ≤ t <;> simp [fireDue, hp, h]

theorem handleMutation_keyInit (o : Config) (proc : Process)
    (sw : Session × World) (ev : Nat × State) :
    (handleMutation o proc sw ev).1.key = sw.1.key
    ∧ (handleMutation o proc sw ev).1.initialState = sw.1.initialState := by
  obtain ⟨hk, hi, _, _⟩ := fireDue_fields o sw.1 sw.2 ev.1
  unfold handleMutation
  dsimp only
  constructor <;> split <;> simp [hk, hi]

theorem runMutations_keyInit (o : Config) (proc : Process) :
    ∀ (evs : List (Nat × State)) (sw : Session × World),
      (runMutations o proc sw evs).1.key = sw.1.key
      ∧ (runMutations o proc sw evs).1.initialState = sw.1.initialState := by
  intro evs
  induction evs with
  | nil => intro sw; exact ⟨rfl, rfl⟩
  | cons ev rest ih =>
    intro sw
    have h1 := handleMutation_keyInit o proc sw ev
    have h2 := ih (handleMutation o proc sw ev)
    have hstep : runMutations o proc sw (ev :: rest) =
        runMutations o proc (handleMutation o proc sw ev) rest := rfl
    rw [hstep]
    exact ⟨h2.1.trans h1.1, h2.2.trans h1.2⟩

/-! ## Claim theorems -/

/-- C6: every call to the returned persist() operation takes a snapshot of
the store and evaluates shouldPersist(previousSnapshot, currentSnapshot):
when false, it resolves having issued no storage operation at all and
leaving storage unchanged; when true, it issues exactly one storage.set of
the serialization of the current snapshot under the session current key,
which afterwards is what storage holds at that key. -/
theorem claim6_persist_respects_shouldPersist (o : Config) (sess : Session)
    (w : World) :
    (persistData o sess w).log =
      w.log ++ (if o.shouldPersist sess.previousState sess.store then
                  [StOp.set sess.key (o.serialize sess.store)] else [])
    ∧ (persistData o sess w).contents =
      (if o.shouldPersist sess.previousState sess.store then
         setA w.contents sess.key (o.serialize sess.store) else w.contents)
    ∧ lookupA (persistData o sess w).contents sess.key =
      (if o.shouldPersist sess.previousState sess.store then
         some (o.serialize sess.store) else lookupA w.contents sess.key) := by
  by_cases h : o.shouldPersist sess.previousState sess.store <;>
    simp [persistData, h, World.setS, lookupA_setA]

/-- C9: clear() issues exactly one storage operation, a storage.remove of
the session current key, after which storage holds nothing at that key and
is unchanged at every other key; the session, in particular the in-memory
store and its values, is untouched. -/
theorem claim9_clear_removes_current_key (sess : Session) (w : World) :
    (clear sess w).1 = sess
    ∧ (clear sess w).2.log = w.log ++ [StOp.remove sess.key]
    ∧ (∀ k, lookupA (clear sess w).2.contents k =
        if k = sess.key then none else lookupA w.contents k) := by
  refine ⟨rfl, rfl, fun k => ?_⟩
  simpa [clear, World.removeS] using lookupA_removeA w.contents sess.key k

/-- C1 (code bug evaluation): at the basic-usage input of the readme and of
the spec example — persist of \x7bcount: 1, text: "hello"\x7d with no
explicit key against empty storage — session construction succeeds, but the
live store starts as the empty object, not as the initial state: with
nothing stored, mergedState is undefined (index.ts line 136) and valtio
proxy(undefined) builds a proxy over \x7b\x7d, discarding initialState. -/
theorem claim1_empty_storage_loses_initial_state :
    persist cfg1 init1 proc0 emptyWorld =
      Except.ok { sess := { key := structureId init1, initialState := init1,
                            store := [], previousState := [], pending := none },
                  proc := { userProvidedKey := false },
                  world := { contents := [],
                             log := [StOp.get (structureId init1)] } }
    ∧ init1 ≠ ([] : State) := ⟨rfl, by decide⟩

/-- C2 (code bug evaluation): a keyless session over \x7ba: 1\x7d mutated
to \x7ba: 1, b: "x"\x7d migrates storage (remove of the old key, set of the
serialized snapshot under the new structural key), but the session never
adopts the new key: key is a const (index.ts line 81), so the debounced
write that follows goes to the old key again, and clear() still removes the
old key. -/
theorem claim2_new_key_never_adopted :
    structureId mut2 ≠ structureId init2
    ∧ run2.1.key = structureId init2
    ∧ run2.2.log =
        [StOp.get (structureId init2), StOp.remove (structureId init2),
         StOp.set (structureId mut2) (encodeState mut2),
         StOp.set (structureId init2) (encodeState mut2)]
    ∧ (clear run2.1 run2.2).2.log =
        run2.2.log ++ [StOp.remove (structureId init2)] := by
  refine ⟨by decide, rfl, rfl, rfl⟩

/-- C3 (counterexample): a keyless session whose shouldPersist is constantly
false still issues a storage.set when a mutation changes the structural key,
because the key-migration branch (index.ts lines 176-188) is not gated by
shouldPersist: one structure-changing mutation yields one set. -/
theorem claim3_counterexample_migration_writes :
    (cfg3.shouldPersist = fun _ _ => false) ∧ countSets run3.2.log = 1 :=
  ⟨rfl, by rfl⟩

theorem runQuiet (o : Config) (proc : Process)
    (hsp : ∀ a b, o.shouldPersist a b = false) :
    ∀ (evs : List (Nat × State)) (sess : Session) (w : World),
      sess.pending = none →
      (∀ ev ∈ evs, migrationGuard o proc sess.key ev.2 = false) →
      (runMutations o proc (sess, w) evs).2 = w
      ∧ (runMutations o proc (sess, w) evs).1.pending = none
      ∧ (runMutations o proc (sess, w) evs).1.key = sess.key := by
  intro evs
  induction evs with
  | nil => intro sess w hp _; exact ⟨rfl, hp, rfl⟩
  | cons ev rest ih =>
    intro sess w hp hm
    have hstep : handleMutation o proc (sess, w) ev =
        ({ key := sess.key, initialState := sess.initialState, store := ev.2,
           previousState := ev.2, pending := none }, w) := by
      unfold handleMutation fireDue
      simp [hp, hm ev (List.mem_cons_self ev rest), hsp]
    have hrun : runMutations o proc (sess, w) (ev :: rest) =
        runMutations o proc (handleMutation o proc (sess, w) ev) rest := rfl
    rw [hrun, hstep]
    have ihr := ih { key := sess.key, initialState := sess.initialState,
                     store := ev.2, previousState := ev.2, pending := none } w rfl
      (fun e he => hm e (List.mem_cons_of_mem ev he))
    exact ⟨ihr.1, ihr.2.1, ihr.2.2⟩

theorem runBusy (o : Config) (proc : Process)
    (hsp : ∀ a b, o.shouldPersist a b = true) :
    ∀ (evs : List (Nat × State)) (sess : Session) (w : World),
      timeline o.debounceTime sess.pending evs = true →
      (∀ ev ∈ evs, migrationGuard o proc sess.key ev.2 = false) →
      runMutations o proc (sess, w) evs =
        ({ key := sess.key, initialState := sess.initialState,
           store := lastState evs sess.store,
           previousState := lastState evs sess.previousState,
           pending := lastDeadline o.debounceTime evs sess.pending }, w) := by
  intro evs
  induction evs with
  | nil => intro sess w _ _; rfl
  | cons ev rest ih =>
    intro sess w htime hmig
    have hnofire : fireDue o sess w ev.1 = (sess, w) := by
      rcases hp : sess.pending with _ | d
      · simp [fireDue, hp]
      · have hlt : ev.1 < d := by
          rw [hp] at htime
          simp [timeline] at htime
          exact htime.1
        simp [fireDue, hp, Nat.not_le.mpr hlt]
    have hstep : handleMutation o proc (sess, w) ev =
        ({ key := sess.key, initialState := sess.initialState, store := ev.2,
           previousState := ev.2, pending := some (ev.1 + o.debounceTime) }, w) := by
      unfold handleMutation
      dsimp only
      rw [hnofire]
      simp [hmig ev (List.mem_cons_self ev rest), hsp]
    have htime2 : timeline o.debounceTime (some (ev.1 + o.debounceTime)) rest = true := by
      rcases hp : sess.pending with _ | d <;> rw [hp] at htime <;>
        simp [timeline] at htime
      · exact htime
      · exact htime.2
    have hrun : runMutations o proc (sess, w) (ev :: rest) =
        runMutations o proc (handleMutation o proc (sess, w) ev) rest := rfl
    rw [hrun, hstep]
    exact ih { key := sess.key, initialState := sess.initialState,
               store := ev.2, previousState := ev.2,
               pending := some (ev.1 + o.debounceTime) } w htime2
      (fun e he => hmig e (List.mem_cons_of_mem ev he))

theorem lastDeadline_acc_some (dbt : Nat) :
    ∀ (evs : List (Nat × State)) (d : Nat),
      ∃ d2, lastDeadline dbt evs (some d) = some d2 := by
  intro evs
  induction evs with
  | nil => intro d; exact ⟨d, rfl⟩
  | cons ev rest ih => intro d; simpa [lastDeadline] using ih (ev.1 + dbt)

/-- C3 (amended): for every session whose shouldPersist predicate returns
false on every pair of snapshots, no debounce-driven storage write is ever
scheduled, and as long as no delivered mutation satisfies the key-migration
condition (same structural key, or a truthful user-provided-key flag, or
migration disabled), no storage operation at all — in particular no
storage.set — occurs, however many mutations are delivered; the ungated
migration branch is the only possible source of writes. -/
theorem claim3_amended_no_writes (o : Config) (proc : Process)
    (sess : Session) (w : World) (evs : List (Nat × State))
    (hsp : ∀ a b, o.shouldPersist a b = false)
    (hpend : sess.pending = none)
    (hmig : ∀ ev ∈ evs, migrationGuard o proc sess.key ev.2 = false) :
    (flushPending o (runMutations o proc (sess, w) evs)).2 = w
    ∧ countSets (flushPending o (runMutations o proc (sess, w) evs)).2.log =
        countSets w.log := by
  obtain ⟨hw, hpd, hk⟩ := runQuiet o proc hsp evs sess w hpend hmig
  have hfl : flushPending o (runMutations o proc (sess, w) evs) =
      runMutations o proc (sess, w) evs := by
    unfold flushPending
    rw [hpd]
  rw [hfl, hw]
  exact ⟨rfl, rfl⟩

/-- Witness for C3 (amended) at a concrete session, two mutations, empty
storage: the world is completely unchanged. -/
theorem claim3_amended_no_writes_witness :
    (flushPending cfgW3 (runMutations cfgW3 proc0 (sessW, emptyWorld) evsW)).2 =
      emptyWorld
    ∧ countSets
        (flushPending cfgW3 (runMutations cfgW3 proc0 (sessW, emptyWorld) evsW)).2.log =
      countSets emptyWorld.log :=
  claim3_amended_no_writes cfgW3 proc0 sessW emptyWorld evsW
    (fun _ _ => rfl) rfl (by decide)

/-- C5 (amended): with shouldPersist always true, N >= 1 mutations each
delivered before the pending debounce deadline (all within the window), and
none of them satisfying the key-migration condition, the whole run performs
exactly one storage operation: one storage.set, issued when the window
elapses, of the serialization of the snapshot after the last mutation,
written under the session key (trailing-edge debounce). -/
theorem claim5_amended_single_write (o : Config) (proc : Process)
    (sess : Session) (w : World) (evs : List (Nat × State))
    (hsp : ∀ a b, o.shouldPersist a b = true)
    (hpend : sess.pending = none)
    (hne : evs ≠ [])
    (htime : timeline o.debounceTime none evs = true)
    (hmig : ∀ ev ∈ evs, migrationGuard o proc sess.key ev.2 = false) :
    (flushPending o (runMutations o proc (sess, w) evs)).2.log =
      w.log ++ [StOp.set sess.key (o.serialize (lastState evs sess.store))]
    ∧ countSets (flushPending o (runMutations o proc (sess, w) evs)).2.log =
        countSets w.log + 1
    ∧ (flushPending o (runMutations o proc (sess, w) evs)).1.store =
        lastState evs sess.store := by
  have htime0 : timeline o.debounceTime sess.pending evs = true := by
    rw [hpend]; exact htime
  have hrun := runBusy o proc hsp evs sess w htime0 hmig
  obtain ⟨ev0, rest0, hevs⟩ : ∃ ev0 rest0, evs = ev0 :: rest0 := by
    cases evs with
    | nil => exact absurd rfl hne
    | cons a b => exact ⟨a, b, rfl⟩
  obtain ⟨d, hd⟩ :=
    lastDeadline_acc_some o.debounceTime rest0 (ev0.1 + o.debounceTime)
  have hpd : lastDeadline o.debounceTime evs sess.pending = some d := by
    rw [hevs, hpend]
    simpa [lastDeadline] using hd
  rw [hrun]
  unfold flushPending
  dsimp only
  rw [hpd]
  simp [persistData, hsp, World.setS, countSets_append, countSets, isSetOp]

/-- Witness for C5 (amended) at a concrete explicit-key session, two
mutations 50 ms apart against a 100 ms window, empty storage: exactly one
set, of the last snapshot. -/
theorem claim5_amended_single_write_witness :
    (flushPending cfgW5 (runMutations cfgW5 proc0 (sessW, emptyWorld) evsW)).2.log =
      emptyWorld.log ++
        [StOp.set sessW.key (cfgW5.serialize (lastState evsW sessW.store))]
    ∧ countSets
        (flushPending cfgW5 (runMutations cfgW5 proc0 (sessW, emptyWorld) evsW)).2.log =
      countSets emptyWorld.log + 1
    ∧ (flushPending cfgW5 (runMutations cfgW5 proc0 (sessW, emptyWorld) evsW)).1.store =
        lastState evsW sessW.store :=
  claim5_amended_single_write cfgW5 proc0 sessW emptyWorld evsW
    (fun _ _ => rfl) rfl (by decide) (by decide) (by decide)

/-- C4 (code bug evaluation): after an earlier keyless persist call flipped
the process-wide userProvidedKey flag (index.ts lines 63 and 83), a later
session created with the explicit key "k" does migrate on a structural
mutation: its storage entry at "k" is removed and the serialized snapshot
is written under the derived structural key. -/
theorem claim4_explicit_key_session_migrates :
    res4b.sess.key = "k"
    ∧ res4b.proc.userProvidedKey = false
    ∧ run4.1.key = "k"
    ∧ StOp.remove "k" ∈ run4.2.log
    ∧ StOp.set (structureId mut2) (encodeState mut2) ∈ run4.2.log := by
  refine ⟨rfl, rfl, rfl, by decide, by decide⟩

/-- C5 (counterexample): with shouldPersist constantly true, a single
mutation (N = 1, trivially inside the debounce window) that changes the
structural key of a keyless session produces two storage.set calls — the
ungated migration write plus the debounced write — not exactly one. -/
theorem claim5_counterexample_two_writes :
    (cfg2.shouldPersist = fun _ _ => true) ∧ countSets run5.2.log = 2 :=
  ⟨rfl, by rfl⟩

/-- C7: for every session and any sequence of delivered mutations, restore
invokes the merge strategy with the original initialState captured at
persist time as its first argument — not the current live values, which the
mutations may have changed arbitrarily — and, when the chain produces a
merged value, applies it field by field onto the existing live store via
updateStore, keeping the same session (same key, same initialState, same
subscription state), so the store object identity is preserved and existing
subscribers remain attached. -/
theorem claim7_restore_merges_original_initial (o : Config) (proc : Process)
    (sess0 : Session) (w0 : World) (evs : List (Nat × State)) :
    (runSess o proc (sess0, w0) evs).initialState = sess0.initialState
    ∧ (runSess o proc (sess0, w0) evs).key = sess0.key
    ∧ restore o (runSess o proc (sess0, w0) evs) (runWorld o proc (sess0, w0) evs) =
      (match storedMergedChain o sess0.initialState sess0.key
          (runWorld o proc (sess0, w0) evs) with
       | some m =>
         { found := true,
           sess := { runSess o proc (sess0, w0) evs with
                     store := updateStore (runSess o proc (sess0, w0) evs).store m },
           world := logGet (runWorld o proc (sess0, w0) evs) sess0.key }
       | none =>
         { found := false, sess := runSess o proc (sess0, w0) evs,
           world := logGet (runWorld o proc (sess0, w0) evs) sess0.key }) := by
  obtain ⟨hk, hi⟩ := runMutations_keyInit o proc evs (sess0, w0)
  have hc := restore_characterization o (runSess o proc (sess0, w0) evs)
    (runWorld o proc (sess0, w0) evs)
  simp only [runSess, runWorld] at hc hi hk ⊢
  rw [hc, hi, hk]
  exact ⟨rfl, rfl, rfl⟩

/-- C8: restore() returns true exactly when storage at the current key held
data that deserialized and merged to a usable (truthy) value; otherwise it
returns false as a normal result, reading storage once and writing nothing,
and applies the merged value to the live store only in the true case.  In
particular a freshly initialized session against empty storage (hence no
explicit key has prior data) has restore() return false. -/
theorem claim8_restore_result (o : Config) (sess : Session) (w : World)
    (i0 : State) (proc : Process) :
    (restore o sess w).found =
      (storedMergedChain o sess.initialState sess.key w).isSome
    ∧ (restore o sess w).world.contents = w.contents
    ∧ (restore o sess w).world.log = w.log ++ [StOp.get sess.key]
    ∧ (restore o sess w).sess =
      (match storedMergedChain o sess.initialState sess.key w with
       | some m => { sess with store := updateStore sess.store m }
       | none => sess)
    ∧ freshRestore o i0 proc = some false := by
  have hfresh : freshRestore o i0 proc = some false := rfl
  have hc := restore_characterization o sess w
  rcases h : storedMergedChain o sess.initialState sess.key w with _ | m <;>
    rw [h] at hc <;>
    exact ⟨by simp [hc], by simp [hc, logGet], by simp [hc, logGet], by simp [hc], hfresh⟩

/-- C10 (amended): at initialization, an absent stored value and a falsy
deserialize result are treated alike (the store starts as the empty object
that valtio proxy substitutes for undefined); a falsy merge result at
initialization is instead coerced to null and makes session construction
throw "object required" from valtio proxy.  In restore(), every falsy link
of the chain (absent data, falsy deserialize result, falsy merge result) is
treated exactly like an absent stored value: restore returns false and
leaves the live store unmodified. -/
theorem claim10_amended_falsy_handling (o : Config) (i0 : State)
    (proc : Process) (w : World) (sess : Session) :
    persist o i0 proc w =
      (match (jsStringOrNull (lookupA w.contents (persistKey o i0))).bind
          o.deserialize with
       | none =>
         Except.ok { sess := { key := persistKey o i0, initialState := i0,
                               store := [], previousState := [],
                               pending := none },
                     proc := persistProc o proc,
                     world := logGet w (persistKey o i0) }
       | some st =>
         match o.merge i0 st with
         | some m =>
           Except.ok { sess := { key := persistKey o i0, initialState := i0,
                                 store := m, previousState := m,
                                 pending := none },
                       proc := persistProc o proc,
                       world := logGet w (persistKey o i0) }
         | none => Except.error "object required")
    ∧ restore o sess w =
      (match storedMergedChain o sess.initialState sess.key w with
       | some m =>
         { found := true, sess := { sess with store := updateStore sess.store m },
           world := logGet w sess.key }
       | none => { found := false, sess := sess, world := logGet w sess.key }) := by
  constructor
  · rcases h : (jsStringOrNull (lookupA w.contents (persistKey o i0))).bind
        o.deserialize with _ | st
    · simp [persist, World.getS, logGet, proxyMk, h]
    · rcases h2 : o.merge i0 st with _ | m <;>
        simp [persist, World.getS, logGet, proxyMk, h, h2]
  · exact restore_characterization o sess w

/-- C10 (counterexample): a falsy merge result at initialization is not
treated like an absent stored value: with data stored and deserialized but
merge returning a falsy value, mergedState is null (index.ts line 134) and
valtio proxy(null) throws "object required", whereas with nothing stored
the same persist call succeeds (with an empty store). -/
theorem claim10_counterexample_falsy_merge_throws :
    persist cfg10 init10 proc0 w10 = Except.error "object required"
    ∧ persist cfg10 init10 proc0 emptyWorld =
        Except.ok { sess := { key := "K10", initialState := init10,
                              store := [], previousState := [], pending := none },
                    proc := proc0,
                    world := { contents := [], log := [StOp.get "K10"] } } :=
  ⟨rfl, rfl⟩

end ValtioAutoPersist
